import Mathlib

/-!
Verification development for the health-tracker service's health-score
computation engine (`app/services/service.py`), embedded shallowly.

Modelling conventions:
- Python floats are modelled as exact rationals (`ℚ`).  None of the
  properties settled here depend on IEEE-754 rounding.
- `statistics.stdev` returns the square root of the sample variance; the
  square root is modelled by `ratSqrt`, which is exact whenever the
  variance is a square of a rational.  Every concrete input used below has
  a perfect-square variance, and no general theorem depends on the value
  of the square root (only on totality and on the error conditions).
- Python exceptions are modelled with `Except ServiceError`: an operation
  that raises is an `Except.error`.  A float division whose denominator is
  zero raises `ZeroDivisionError` in Python, hence every division in the
  embedding is guarded and mapped to `ServiceError.zeroDivision` instead
  of relying on rational division-by-zero.
- `uuid.UUID` values are modelled as `Nat`, `AwareDatetime` as `Int`.
- Python dicts (insertion ordered) are modelled as association lists.
- `round(x, n)` is modelled by rounding half up on rationals; it differs
  from Python's banker's rounding only on exact ties, which no statement
  below touches.
-/

/-- Errors that the health-score computation can surface.  `badRequest`
models `HTTPBadRequestError`, `notFound` the repository's no-result error,
`zeroDivision` Python's `ZeroDivisionError`, `statisticsError` the
`statistics.StatisticsError` raised by `stdev` on fewer than two data
points, `keyError` a dict `KeyError`, and `indexError` a list
`IndexError`. -/
inductive ServiceError where
  | badRequest (detail : String)
  | notFound
  | zeroDivision
  | statisticsError
  | keyError
  | indexError
deriving DecidableEq, Repr

/-- A FHIR coding: `(system, code)` pair plus optional display text
(`app/schemas/schemas.py`, class `Coding`). -/
structure Coding where
  code : String
  system : String
  display : Option String := none
deriving DecidableEq, Repr

/-- A codeable concept: display text plus a list of codings
(`app/schemas/schemas.py`, class `CodeableConcept`). -/
structure CodeableConcept where
  text : String
  coding : List Coding := []
deriving DecidableEq, Repr

/-- The fields of `ObservationRead` that the scoring pipeline reads:
identifier, owning patient, classifying concept, numeric value and the
effective time window (`app/schemas/schemas.py`). -/
structure Observation where
  id : Nat
  subject_id : Nat
  code : CodeableConcept
  value_quantity : ℚ
  effective_datetime_start : Int := 0
  effective_datetime_end : Int := 0
deriving DecidableEq, Repr

/-- Observation query filters (`app/schemas/schemas.py`,
`ObservationFilters`).  The source field `end` is spelled `ending` here
because `end` is a reserved word in Lean. -/
structure ObservationFilters where
  subject_ids : List Nat := []
  start : Option Int := none
  ending : Option Int := none
deriving DecidableEq, Repr

/-- The settings attributes read by `_calculate_score`
(`app/services/service.py`, lines 272/277/280). -/
structure AppSettings where
  SERVICE_SCORE_WEIGHT_OBSERVATION_COVERAGE : ℚ
  SERVICE_SCORE_WEIGHT_VALUE_QUALITY : ℚ
  SERVICE_SCORE_WEIGHT_CONS : ℚ
deriving DecidableEq, Repr

/-- Per-code population statistics (`schemas.PopulationStatistics` as
constructed in `_calculate_statistics`). -/
structure PopulationStatistics where
  code : String
  mean : ℚ
  std : ℚ
  min : ℚ
  max : ℚ
  count : Nat
deriving DecidableEq, Repr

/-- Per-code value score (`schemas.ValueScore` as constructed in
`_calculate_metrics`).  Note that the source assigns `avg_value`, which it
set to the population mean, to the `patient_avg` field. -/
structure ValueScore where
  code : String
  patient_avg : ℚ
  population_avg : ℚ
  score : ℚ
deriving DecidableEq, Repr

/-- Patient metrics (`schemas.PatientMetrics` as constructed in
`_calculate_metrics`). -/
structure PatientMetrics where
  observation_count : Nat
  observation_codes : List String
  value_scores : List ValueScore
  consistency_score : ℚ
deriving DecidableEq, Repr

/-- The data of the composed conclusion text
(`_compose_conclusion`).  The Python function renders exactly these
values into a fixed f-string template, so the record determines the
text; in particular `overall_assessment` is the categorical assessment
sentence embedded in the conclusion. -/
structure Conclusion where
  patient : String
  period_start : Option Int
  period_end : Option Int
  observation_count : Nat
  codes_count : Nat
  health_score : ℚ
  value_scores : List ValueScore
  consistency_score : ℚ
  overall_assessment : String
deriving DecidableEq, Repr

/-- The parts of the FHIR `DiagnosticReport` built by `_construct_report`
that carry computed content. -/
structure DiagnosticReport where
  id : String
  status : String
  subject : String
  result : List String
  conclusion : Conclusion
deriving DecidableEq, Repr

/-- The observation store and patient table visible to the orchestrator. -/
structure Database where
  patients : List Nat := []
  observations : List Observation := []
deriving DecidableEq, Repr

/-! ### Numeric helpers (Python `statistics` and built-ins) -/

/-- Arithmetic mean, `statistics.mean`.  Only ever applied to nonempty
lists in the embedded code paths. -/
def listMean (l : List ℚ) : ℚ := l.sum / (l.length : ℚ)

/-- Python `min` over a nonempty list. -/
def listMin (l : List ℚ) : ℚ :=
  match l with
  | [] => 0
  | x :: xs => xs.foldl min x

/-- Python `max` over a nonempty list. -/
def listMax (l : List ℚ) : ℚ :=
  match l with
  | [] => 0
  | x :: xs => xs.foldl max x

/-- Sample variance with Bessel's correction, as used by
`statistics.stdev`. -/
def sampleVariance (l : List ℚ) : ℚ :=
  (l.map (fun x => (x - listMean l) ^ 2)).sum / ((l.length : ℚ) - 1)

/-- Square root on nonnegative rationals, exact on perfect squares
(numerator and denominator both perfect squares); models the float square
root inside `statistics.stdev`.  Implemented by linear search so that it
evaluates by kernel reduction. -/
def natSqrt (n : Nat) : Nat :=
  (List.range (n + 1)).foldl (fun acc k => if k * k ≤ n then k else acc) 0

/-- Rational square root via `natSqrt` on numerator and denominator. -/
def ratSqrt (q : ℚ) : ℚ := (natSqrt q.num.toNat : ℚ) / (natSqrt q.den : ℚ)

/-- The value `statistics.stdev(l)` returns when it is defined. -/
def stdevQ (l : List ℚ) : ℚ := ratSqrt (sampleVariance l)

/-- `statistics.stdev`, including the `StatisticsError` raised on fewer
than two data points. -/
def stdevE (l : List ℚ) : Except ServiceError ℚ :=
  if l.length ≥ 2 then .ok (stdevQ l) else .error .statisticsError

/-- Python `round(x, 2)` (modulo tie-breaking, see the file comment). -/
def round2 (q : ℚ) : ℚ := (round (q * 100) : ℤ) / 100

/-! ### Statistics Aggregator (`_prepare_observations_values`,
`_calculate_statistics`) -/

/-- Append a value to the bucket of key `c` in an insertion-ordered
association list, creating the bucket at the end if absent — the
behaviour of `defaultdict(list)` under `res[c].append(v)`. -/
def addValue (m : List (String × List ℚ)) (c : String) (v : ℚ) :
    List (String × List ℚ) :=
  match m with
  | [] => [(c, [v])]
  | (k, vs) :: rest =>
      if k = c then (k, vs ++ [v]) :: rest else (k, vs) :: addValue rest c v

/-- Contribute one observation to the buckets: one append per coding
attached to its classifying concept. -/
def addObservation (m : List (String × List ℚ)) (o : Observation) :
    List (String × List ℚ) :=
  o.code.coding.foldl (fun m cd => addValue m cd.code o.value_quantity) m

/-- `_prepare_observations_values`: group the observations' values by the
`code` string of each attached coding (`res[coding.code].append(...)`). -/
def prepare_observations_values (observations : List Observation) :
    List (String × List ℚ) :=
  observations.foldl addObservation []

/-- Dict lookup on an insertion-ordered association list (first match). -/
def findValues (m : List (String × List ℚ)) (c : String) : List ℚ :=
  match m with
  | [] => []
  | (k, vs) :: rest => if k = c then vs else findValues rest c

/-- The keys of the grouping, in insertion order
(`observations_per_code.keys()`). -/
def keysOf (m : List (String × List ℚ)) : List String := m.map Prod.fst

/-- `_calculate_statistics`: per-code descriptive statistics, keeping only
buckets with more than one value. -/
def calculate_statistics (observations : List Observation) :
    List (String × PopulationStatistics) :=
  (prepare_observations_values observations).filterMap fun cv =>
    if cv.2.length > 1 then
      some (cv.1,
        { code := cv.1
          mean := listMean cv.2
          std := stdevQ cv.2
          min := listMin cv.2
          max := listMax cv.2
          count := cv.2.length })
    else none

/-- `stats.get(code)`: lookup in the statistics map. -/
def findStat (stats : List (String × PopulationStatistics)) (c : String) :
    Option PopulationStatistics :=
  match stats with
  | [] => none
  | (k, s) :: rest => if k = c then some s else findStat rest c

/-! ### Score Calculator (`_calculate_metrics`, `_calculate_score`) -/

/-- The per-code loop of `_calculate_metrics` (lines 231-245).  For each
patient code present in the statistics map it computes
`avg_value = pop_stats.mean`, then
`z_score = abs((avg_value - pop_stats.mean) / pop_stats.std)` — raising
`ZeroDivisionError` when `pop_stats.std` is zero — and records
`max(0, 100 - z_score * 20)`.  Codes absent from the map are skipped. -/
def value_scores_loop (stats : List (String × PopulationStatistics)) :
    List (String × List ℚ) → Except ServiceError (List ValueScore)
  | [] => .ok []
  | (code, _values) :: rest =>
      match findStat stats code with
      | some pop_stats =>
          let avg_value := pop_stats.mean
          if pop_stats.std = 0 then .error .zeroDivision
          else
            let z_score := |(avg_value - pop_stats.mean) / pop_stats.std|
            let value_score := max 0 (100 - z_score * 20)
            match value_scores_loop stats rest with
            | .error e => .error e
            | .ok tail =>
                .ok ({ code := code
                       patient_avg := avg_value
                       population_avg := pop_stats.mean
                       score := value_score } :: tail)
      | none => value_scores_loop stats rest

/-- `_calculate_metrics`: value scores per code, then the consistency
score `max(0, 100 - (stdev(values) / mean(values)) * 50)` over all the
patient's values; `stdev` raises on fewer than two values, and the
division raises when the mean is zero. -/
def calculate_metrics (observations : List Observation)
    (stats : List (String × PopulationStatistics)) :
    Except ServiceError PatientMetrics :=
  match value_scores_loop stats (prepare_observations_values observations) with
  | .error e => .error e
  | .ok value_scores =>
      let values := observations.map (·.value_quantity)
      match stdevE values with
      | .error e => .error e
      | .ok sd =>
          if listMean values = 0 then .error .zeroDivision
          else
            let cv := sd / listMean values
            let consistency_score := max 0 (100 - cv * 50)
            .ok { observation_count := observations.length
                  observation_codes :=
                    keysOf (prepare_observations_values observations)
                  value_scores := value_scores
                  consistency_score := consistency_score }

/-- `_calculate_score`: weighted sum of an observation-coverage component
`min(100, 20 * number_of_codes)`, the mean of the value scores (only when
there are any), and the consistency score, rounded to 2 decimals. -/
def calculate_score (settings : AppSettings) (metrics : PatientMetrics) : ℚ :=
  let res : ℚ := 0
  let score : ℚ := min 100 ((metrics.observation_codes.length : ℚ) * 20)
  let res := res + score * settings.SERVICE_SCORE_WEIGHT_OBSERVATION_COVERAGE
  let res :=
    if metrics.value_scores = [] then res
    else res + listMean (metrics.value_scores.map (·.score)) *
      settings.SERVICE_SCORE_WEIGHT_VALUE_QUALITY
  let res := res + metrics.consistency_score * settings.SERVICE_SCORE_WEIGHT_CONS
  round2 res

/-! ### Report Composer (`_compose_conclusion`, `_construct_report`) -/

/-- The literal `assignments_map` dict of `_compose_conclusion`; `none`
models the `KeyError` raised on a missing key. -/
def assignments_map (bucket : Int) : Option String :=
  if bucket = 4 then some "Excellent health data quality and consistency."
  else if bucket = 3 then some "Good health data with room for improvement."
  else if bucket = 2 then
    some "Moderate health data quality, consider additional monitoring."
  else if bucket = 1 then
    some "Limited health data quality, recommend increase activity."
  else if bucket = 0 then
    some "Inappropriate health score, instant actions are required."
  else none

/-- `_compose_conclusion`: the overall assessment is
`assignments_map[int(health_score // 20)]` — a `KeyError` when the bucket
is outside `{0,...,4}` — and the conclusion embeds the given data. -/
def compose_conclusion (filters : ObservationFilters) (patient_id : Nat)
    (health_score : ℚ) (metrics : PatientMetrics) :
    Except ServiceError Conclusion :=
  match assignments_map ⌊health_score / 20⌋ with
  | none => .error .keyError
  | some overall_assessment =>
      .ok { patient := toString patient_id
            period_start := filters.start
            period_end := filters.ending
            observation_count := metrics.observation_count
            codes_count := metrics.observation_codes.length
            health_score := health_score
            value_scores := metrics.value_scores
            consistency_score := metrics.consistency_score
            overall_assessment := overall_assessment }

/-! ### Health Score Orchestrator (`get_health_score`) -/

/-- The repository window filter for observations
(`ObservationRepo._apply_filters`): subject in `subject_ids` when that
list is nonempty, `effective_datetime_start >= start` and
`effective_datetime_end <= end` when those bounds are given. -/
def observation_matches_filters (filters : ObservationFilters)
    (o : Observation) : Bool :=
  (filters.subject_ids = [] || filters.subject_ids.contains o.subject_id)
    && (match filters.start with
        | none => true
        | some s => s ≤ o.effective_datetime_start)
    && (match filters.ending with
        | none => true
        | some e => o.effective_datetime_end ≤ e)

/-- The patient's own observations fetched within the requested window
(`get_health_score`, line 162). -/
def patient_observations (db : Database) (filters : ObservationFilters) :
    List Observation :=
  db.observations.filter (observation_matches_filters filters)

/-- The population comparison set (`get_health_score`, lines 168-172): all
stored observations whose id is not among the ids of the fetched patient
observations; no other filter is applied. -/
def other_observations (db : Database) (filters : ObservationFilters) :
    List Observation :=
  db.observations.filter fun o =>
    !(((patient_observations db filters).map (·.id)).contains o.id)

/-- The detail string of the bad-request error raised when the patient
has no observations in the window. -/
def no_observations_detail (filters : ObservationFilters) : String :=
  "No observations found for patient " ++ toString filters.subject_ids

/-- `get_health_score`: resolve the patient, fetch the windowed patient
observations (bad request when empty), fetch the population set, compute
statistics over the concatenation, metrics, the aggregate score, and
assemble the diagnostic report. -/
def get_health_score (db : Database) (filters : ObservationFilters)
    (settings : AppSettings) : Except ServiceError DiagnosticReport :=
  match filters.subject_ids with
  | [] => .error .indexError
  | patient_id :: _ =>
      if patient_id ∈ db.patients then
        if patient_observations db filters = [] then
          .error (.badRequest (no_observations_detail filters))
        else
          let stats := calculate_statistics
            (patient_observations db filters ++ other_observations db filters)
          match calculate_metrics (patient_observations db filters) stats with
          | .error e => .error e
          | .ok patient_metrics =>
              let patient_score := calculate_score settings patient_metrics
              match compose_conclusion filters patient_id patient_score
                  patient_metrics with
              | .error e => .error e
              | .ok conclusion =>
                  .ok { id := "health-score-" ++ toString patient_id
                        status := "final"
                        subject := "Patient/" ++ toString patient_id
                        result := (patient_observations db filters).map
                          (fun o => "Observation/" ++ toString o.id)
                        conclusion := conclusion }
      else .error .notFound

/-! ### Specification-side definitions

These definitions transcribe formulas as the specification states them, to
be compared with the embedded source functions. -/

/-- Rounding to 4 decimal digits, as the spec claims for the aggregate
score. -/
def round4 (q : ℚ) : ℚ := (round (q * 10000) : ℤ) / 10000

/-- The categorical assessment the code actually produces on aggregate
scores in `[0, 100)`: the fixed text for bucket `⌊s / 20⌋` (for such `s`
the bucket lies in `{0,...,4}`; there is no `- 1` shift and no clamping,
and at `s = 100` the bucket is `5` and the lookup fails). -/
def amended_assessment_text (s : ℚ) : String :=
  if s < 20 then "Inappropriate health score, instant actions are required."
  else if s < 40 then "Limited health data quality, recommend increase activity."
  else if s < 60 then
    "Moderate health data quality, consider additional monitoring."
  else if s < 80 then "Good health data with room for improvement."
  else "Excellent health data quality and consistency."

/-! ### Concrete inputs used by the counterexamples and witnesses -/

/-- Coding `A` (system `sysA`). -/
def cdA : Coding where
  code := "A"
  system := "sysA"

/-- Coding `B` (system `sysA`). -/
def cdB : Coding where
  code := "B"
  system := "sysA"

/-- Concept classifying under coding `A`. -/
def ccA : CodeableConcept where
  text := "A"
  coding := [cdA]

/-- Concept classifying under coding `B`. -/
def ccB : CodeableConcept where
  text := "B"
  coding := [cdB]

/-- Patient 1's observation of coding `A`, value 3. -/
def obsA1 : Observation where
  id := 1
  subject_id := 1
  code := ccA
  value_quantity := 3

/-- Patient 1's observation of coding `B`, value 3. -/
def obsA2 : Observation where
  id := 2
  subject_id := 1
  code := ccB
  value_quantity := 3

/-- Population observation of coding `A`, value 0, owned by patient 2. -/
def oP (i : Nat) : Observation where
  id := i
  subject_id := 2
  code := ccA
  value_quantity := 0

/-- Store A: patient 1 with observations `(A, 3)` and `(B, 3)`, and eight
population observations `(A, 0)` from patient 2.  Combined statistics for
`A`: count 9, mean `1/3`, sample stdev exactly 1; coding `B` has a single
combined value and is dropped. -/
def dbA : Database where
  patients := [1, 2]
  observations := [obsA1, obsA2, oP 3, oP 4, oP 5, oP 6, oP 7, oP 8, oP 9, oP 10]

/-- Filters selecting patient 1 with no time window. -/
def fA : ObservationFilters where
  subject_ids := [1]

/-- Concrete weights for the three aggregate-score components. -/
def w0 : AppSettings where
  SERVICE_SCORE_WEIGHT_OBSERVATION_COVERAGE := 1/4
  SERVICE_SCORE_WEIGHT_VALUE_QUALITY := 7/20
  SERVICE_SCORE_WEIGHT_CONS := 2/5

/-- Combined statistics for coding `A` in store A. -/
def psA : PopulationStatistics where
  code := "A"
  mean := 1/3
  std := 1
  min := 0
  max := 3
  count := 9

/-- The value score recorded for coding `A` in store A. -/
def vsA : ValueScore where
  code := "A"
  patient_avg := 1/3
  population_avg := 1/3
  score := 100

/-- The metrics computed for patient 1 in store A. -/
def mA : PatientMetrics where
  observation_count := 2
  observation_codes := ["A", "B"]
  value_scores := [vsA]
  consistency_score := 100

/-- The conclusion composed for patient 1 in store A with weights `w0`
(aggregate score 85). -/
def conclA : Conclusion where
  patient := "1"
  period_start := none
  period_end := none
  observation_count := 2
  codes_count := 2
  health_score := 85
  value_scores := [vsA]
  consistency_score := 100
  overall_assessment := "Excellent health data quality and consistency."

/-- The diagnostic report produced for patient 1 in store A. -/
def rA : DiagnosticReport where
  id := "health-score-1"
  status := "final"
  subject := "Patient/1"
  result := ["Observation/1", "Observation/2"]
  conclusion := conclA

/-- Patient 1's first observation of coding `A`, value 3 (store C5). -/
def obs51 : Observation where
  id := 1
  subject_id := 1
  code := ccA
  value_quantity := 3

/-- Patient 1's second observation of coding `A`, value 3 (store C5). -/
def obs52 : Observation where
  id := 2
  subject_id := 1
  code := ccA
  value_quantity := 3

/-- Store C5: patient 1 with two equal observations of coding `A` and an
empty population, so the combined standard deviation for `A` is zero. -/
def dbC5 : Database where
  patients := [1]
  observations := [obs51, obs52]

/-- Combined statistics for coding `A` in store C5: stdev zero. -/
def psC5 : PopulationStatistics where
  code := "A"
  mean := 3
  std := 0
  min := 3
  max := 3
  count := 2

/-- Store C6: patient 1 with observations `(A, 3)` and `(B, 3)` and an
empty population: every combined bucket has a single value, so no coding
qualifies for scoring. -/
def dbC6 : Database where
  patients := [1]
  observations := [obsA1, obsA2]

/-- The metrics computed for patient 1 in store C6: empty value-score
list, consistency 100. -/
def m6 : PatientMetrics where
  observation_count := 2
  observation_codes := ["A", "B"]
  value_scores := []
  consistency_score := 100

/-- The conclusion composed for patient 1 in store C6 with weights `w0`
(aggregate score 50, from coverage and consistency alone). -/
def concl6 : Conclusion where
  patient := "1"
  period_start := none
  period_end := none
  observation_count := 2
  codes_count := 2
  health_score := 50
  value_scores := []
  consistency_score := 100
  overall_assessment := "Moderate health data quality, consider additional monitoring."

/-- The diagnostic report produced for patient 1 in store C6. -/
def r6 : DiagnosticReport where
  id := "health-score-1"
  status := "final"
  subject := "Patient/1"
  result := ["Observation/1", "Observation/2"]
  conclusion := concl6

/-- Patient 1's in-window observation (store C9). -/
def obsW1 : Observation where
  id := 1
  subject_id := 1
  code := ccA
  value_quantity := 5
  effective_datetime_start := 10
  effective_datetime_end := 11

/-- Patient 1's out-of-window observation (store C9). -/
def obsW2 : Observation where
  id := 2
  subject_id := 1
  code := ccA
  value_quantity := 7
  effective_datetime_start := 0
  effective_datetime_end := 1

/-- Patient 2's observation (store C9). -/
def obsW3 : Observation where
  id := 3
  subject_id := 2
  code := ccA
  value_quantity := 9
  effective_datetime_start := 10
  effective_datetime_end := 11

/-- Store C9: patient 1 with one in-window and one out-of-window
observation, plus one observation of patient 2. -/
def dbC9 : Database where
  patients := [1, 2]
  observations := [obsW1, obsW2, obsW3]

/-- Filters selecting patient 1 in the window `[5, 20]`. -/
def fC9 : ObservationFilters where
  subject_ids := [1]
  start := some 5
  ending := some 20

/-- Filters selecting patient 1 in the window `[100, 200]`, which matches
none of store C9's observations. -/
def fC4 : ObservationFilters where
  subject_ids := [1]
  start := some 100
  ending := some 200

/-- Patient 1's only observation (store C10). -/
def obs101 : Observation where
  id := 1
  subject_id := 1
  code := ccA
  value_quantity := 3

/-- Store C10: patient 1 with exactly one observation and an empty
population. -/
def dbC10 : Database where
  patients := [1]
  observations := [obs101]

/-- Observation carrying coding `(sysA, X)`, value 1 (store C8). -/
def o81 : Observation where
  id := 1
  subject_id := 1
  code := { text := "c1", coding := [{ code := "X", system := "sysA" }] }
  value_quantity := 1

/-- Observation carrying coding `(sysB, X)` — same code string, different
system — value 2 (store C8). -/
def o82 : Observation where
  id := 2
  subject_id := 2
  code := { text := "c2", coding := [{ code := "X", system := "sysB" }] }
  value_quantity := 2

/-- Trivial metrics record used to exercise the report composer alone. -/
def mEmpty : PatientMetrics where
  observation_count := 0
  observation_codes := []
  value_scores := []
  consistency_score := 0

/-! ### Evaluation lemmas for the concrete stores -/

/-- In store A the windowed patient fetch returns patient 1's two
observations. -/
theorem pObsA_eval : patient_observations dbA fA = [obsA1, obsA2] := by
  simp +decide [patient_observations, dbA, observation_matches_filters, fA,
    obsA1, obsA2, oP, List.filter]

/-- In store A the population fetch returns the eight observations of
patient 2. -/
theorem othersA_eval :
    other_observations dbA fA = [oP 3, oP 4, oP 5, oP 6, oP 7, oP 8, oP 9, oP 10] := by
  simp +decide [other_observations, pObsA_eval, dbA, obsA1, obsA2, oP, List.filter]

/-- Combined statistics in store A: coding `A` has mean `1/3`, sample
standard deviation 1, count 9; coding `B` is dropped (single value). -/
theorem statsA_eval :
    calculate_statistics (patient_observations dbA fA ++ other_observations dbA fA)
      = [("A", psA)] := by
  rw [pObsA_eval, othersA_eval]
  norm_num [calculate_statistics, prepare_observations_values, addObservation,
    addValue, obsA1, obsA2, oP, ccA, ccB, cdA, cdB, List.foldl, List.filterMap,
    listMean, listMin, listMax, stdevQ, sampleVariance, ratSqrt, natSqrt,
    List.range_succ, psA]

/-- Metrics in store A: one value score (coding `A`, score 100),
consistency 100. -/
theorem metricsA_eval :
    calculate_metrics (patient_observations dbA fA)
      (calculate_statistics (patient_observations dbA fA ++ other_observations dbA fA))
      = .ok mA := by
  rw [statsA_eval, pObsA_eval]
  norm_num +decide [calculate_metrics, value_scores_loop,
    prepare_observations_values, addObservation, addValue, findStat, obsA1,
    obsA2, ccA, ccB, cdA, cdB, List.foldl, stdevE, stdevQ, sampleVariance,
    ratSqrt, natSqrt, List.range_succ, listMean, keysOf, psA, mA, vsA]

/-- Aggregate score in store A with weights `w0`:
`round(40 * (1/4) + 100 * (7/20) + 100 * (2/5), 2) = 85`. -/
theorem scoreA_eval : calculate_score w0 mA = 85 := by
  norm_num [calculate_score, mA, vsA, w0, listMean, round2]

/-- Conclusion composed in store A: bucket `⌊85 / 20⌋ = 4`. -/
theorem composeA_eval : compose_conclusion fA 1 85 mA = .ok conclA := by
  have h4 : (⌊(85 : ℚ) / 20⌋ : ℤ) = 4 := by
    rw [Int.floor_eq_iff]
    norm_num
  simp only [compose_conclusion, h4]
  simp +decide [assignments_map, fA, conclA, mA, vsA]

/-- The full pipeline in store A returns report `rA`. -/
theorem reportA_eval : get_health_score dbA fA w0 = .ok rA := by
  have hsub : fA.subject_ids = [1] := rfl
  simp only [get_health_score, hsub]
  rw [metricsA_eval]
  dsimp only
  rw [scoreA_eval, composeA_eval]
  dsimp only
  rw [pObsA_eval]
  simp +decide [dbA, rA, conclA, obsA1, obsA2]

/-- In store C5 the windowed patient fetch returns the two equal
observations of coding `A`. -/
theorem pObs5_eval : patient_observations dbC5 fA = [obs51, obs52] := by
  simp +decide [patient_observations, dbC5, observation_matches_filters, fA,
    obs51, obs52, List.filter]

/-- In store C5 the population fetch is empty. -/
theorem others5_eval : other_observations dbC5 fA = [] := by
  simp +decide [other_observations, pObs5_eval, dbC5, obs51, obs52, List.filter]

/-- Combined statistics in store C5: coding `A` has count 2 and standard
deviation 0. -/
theorem stats5_eval :
    calculate_statistics (patient_observations dbC5 fA ++ other_observations dbC5 fA)
      = [("A", psC5)] := by
  rw [pObs5_eval, others5_eval]
  norm_num [calculate_statistics, prepare_observations_values, addObservation,
    addValue, obs51, obs52, ccA, cdA, List.foldl, List.filterMap, listMean,
    listMin, listMax, stdevQ, sampleVariance, ratSqrt, natSqrt,
    List.range_succ, psC5]

/-- Metrics in store C5 fail with the division error raised by the
unguarded `/ pop_stats.std`. -/
theorem metrics5_eval :
    calculate_metrics (patient_observations dbC5 fA)
      (calculate_statistics (patient_observations dbC5 fA ++ other_observations dbC5 fA))
      = .error .zeroDivision := by
  rw [stats5_eval, pObs5_eval]
  norm_num +decide [calculate_metrics, value_scores_loop,
    prepare_observations_values, addObservation, addValue, findStat, obs51,
    obs52, ccA, cdA, List.foldl, psC5]

/-- The full pipeline in store C5 raises the division error. -/
theorem report5_eval : get_health_score dbC5 fA w0 = .error .zeroDivision := by
  have hsub : fA.subject_ids = [1] := rfl
  simp only [get_health_score, hsub]
  rw [metrics5_eval]
  dsimp only
  rw [pObs5_eval]
  simp +decide [dbC5]

/-- In store C6 the windowed patient fetch returns patient 1's two
observations. -/
theorem pObs6_eval : patient_observations dbC6 fA = [obsA1, obsA2] := by
  simp +decide [patient_observations, dbC6, observation_matches_filters, fA,
    obsA1, obsA2, List.filter]

/-- In store C6 the population fetch is empty. -/
theorem others6_eval : other_observations dbC6 fA = [] := by
  simp +decide [other_observations, pObs6_eval, dbC6, obsA1, obsA2, List.filter]

/-- Combined statistics in store C6 are empty: both codings have a single
value. -/
theorem stats6_eval :
    calculate_statistics (patient_observations dbC6 fA ++ other_observations dbC6 fA)
      = [] := by
  rw [pObs6_eval, others6_eval]
  norm_num +decide [calculate_statistics, prepare_observations_values,
    addObservation, addValue, obsA1, obsA2, ccA, ccB, cdA, cdB, List.foldl,
    List.filterMap]

/-- Metrics in store C6: no coding qualifies, so the value-score list is
empty, yet the computation succeeds with consistency 100. -/
theorem metrics6_eval :
    calculate_metrics (patient_observations dbC6 fA)
      (calculate_statistics (patient_observations dbC6 fA ++ other_observations dbC6 fA))
      = .ok m6 := by
  rw [stats6_eval, pObs6_eval]
  norm_num +decide [calculate_metrics, value_scores_loop,
    prepare_observations_values, addObservation, addValue, findStat, obsA1,
    obsA2, ccA, ccB, cdA, cdB, List.foldl, stdevE, stdevQ, sampleVariance,
    ratSqrt, natSqrt, List.range_succ, listMean, keysOf, m6]

/-- Aggregate score in store C6 with weights `w0`: the value-quality term
is skipped and `round(40 * (1/4) + 100 * (2/5), 2) = 50`. -/
theorem score6_eval : calculate_score w0 m6 = 50 := by
  norm_num [calculate_score, m6, w0, round2]

/-- Conclusion composed in store C6: bucket `⌊50 / 20⌋ = 2`. -/
theorem compose6_eval : compose_conclusion fA 1 50 m6 = .ok concl6 := by
  have h2 : (⌊(50 : ℚ) / 20⌋ : ℤ) = 2 := by
    rw [Int.floor_eq_iff]
    norm_num
  simp only [compose_conclusion, h2]
  simp +decide [assignments_map, fA, concl6, m6]

/-- The full pipeline in store C6 succeeds and returns report `r6` even
though no coding qualified for scoring. -/
theorem report6_eval : get_health_score dbC6 fA w0 = .ok r6 := by
  have hsub : fA.subject_ids = [1] := rfl
  simp only [get_health_score, hsub]
  rw [metrics6_eval]
  dsimp only
  rw [score6_eval, compose6_eval]
  dsimp only
  rw [pObs6_eval]
  simp +decide [dbC6, r6, concl6, obsA1, obsA2]

/-- In store C9 the windowed patient fetch returns only the in-window
observation. -/
theorem pObs9_eval : patient_observations dbC9 fC9 = [obsW1] := by
  simp +decide [patient_observations, dbC9, observation_matches_filters, fC9,
    obsW1, obsW2, obsW3, List.filter]

/-- In store C9 the population fetch returns patient 1's own out-of-window
observation together with patient 2's observation. -/
theorem others9_eval : other_observations dbC9 fC9 = [obsW2, obsW3] := by
  simp +decide [other_observations, pObs9_eval, dbC9, obsW1, obsW2, obsW3,
    List.filter]

/-- In store C9 with window `[100, 200]` the patient fetch is empty. -/
theorem pObsC4_eval : patient_observations dbC9 fC4 = [] := by
  simp +decide [patient_observations, dbC9, observation_matches_filters, fC4,
    obsW1, obsW2, obsW3, List.filter]

/-- In store C10 the windowed patient fetch returns the single
observation. -/
theorem pObs10_eval : patient_observations dbC10 fA = [obs101] := by
  simp +decide [patient_observations, dbC10, observation_matches_filters, fA,
    obs101, List.filter]

/-! ### General lemmas about the embedded functions -/

/-- Closed form of `_calculate_score`: the aggregate is the rounded
weighted sum of the coverage, value-quality (when present) and consistency
components. -/
theorem calculate_score_formula (w : AppSettings) (m : PatientMetrics) :
    calculate_score w m = round2
      (min 100 ((m.observation_codes.length : ℚ) * 20) *
          w.SERVICE_SCORE_WEIGHT_OBSERVATION_COVERAGE
        + (if m.value_scores = [] then 0
           else listMean (m.value_scores.map (·.score)) *
             w.SERVICE_SCORE_WEIGHT_VALUE_QUALITY)
        + m.consistency_score * w.SERVICE_SCORE_WEIGHT_CONS) := by
  simp only [calculate_score]
  split_ifs with h
  · congr 1
    ring
  · congr 1
    ring

/-- The per-code scoring loop either raises the division error or
succeeds; no other error can escape it. -/
theorem value_scores_loop_zero_or_ok (stats : List (String × PopulationStatistics))
    (entries : List (String × List ℚ)) :
    value_scores_loop stats entries = .error .zeroDivision ∨
      ∃ vs, value_scores_loop stats entries = .ok vs := by
  induction entries with
  | nil => exact Or.inr ⟨[], rfl⟩
  | cons e rest ih =>
      obtain ⟨c, vals⟩ := e
      simp only [value_scores_loop]
      cases hfs : findStat stats c with
      | none =>
          dsimp only
          exact ih
      | some ps =>
          dsimp only
          by_cases h0 : ps.std = 0
          · rw [if_pos h0]
            exact Or.inl rfl
          · rw [if_neg h0]
            rcases ih with herr | ⟨vs, hok⟩
            · rw [herr]
              exact Or.inl rfl
            · rw [hok]
              exact Or.inr ⟨_, rfl⟩

/-- Every patient code that hits the statistics map contributes an entry
to the value-score list computed by the loop. -/
theorem value_scores_loop_mem_code (stats : List (String × PopulationStatistics)) :
    ∀ (entries : List (String × List ℚ)) (vs : List ValueScore) (c : String)
      (vals : List ℚ) (ps : PopulationStatistics),
      value_scores_loop stats entries = .ok vs →
      (c, vals) ∈ entries → findStat stats c = some ps →
      c ∈ vs.map ValueScore.code := by
  intro entries
  induction entries with
  | nil =>
      intro vs c vals ps hok hmem hstat
      exact absurd hmem (List.not_mem_nil _)
  | cons e rest ih =>
      intro vs c vals ps hok hmem hstat
      obtain ⟨c1, vals1⟩ := e
      simp only [value_scores_loop] at hok
      cases hfs : findStat stats c1 with
      | none =>
          rw [hfs] at hok
          dsimp only at hok
          rcases List.mem_cons.mp hmem with heq | hmem2
          · rw [Prod.mk.injEq] at heq
            obtain ⟨hc, -⟩ := heq
            subst hc
            rw [hstat] at hfs
            cases hfs
          · exact ih vs c vals ps hok hmem2 hstat
      | some ps1 =>
          rw [hfs] at hok
          dsimp only at hok
          by_cases h0 : ps1.std = 0
          · rw [if_pos h0] at hok
            cases hok
          · rw [if_neg h0] at hok
            cases hloop : value_scores_loop stats rest with
            | error e =>
                rw [hloop] at hok
                dsimp only at hok
                cases hok
            | ok tail =>
                rw [hloop] at hok
                dsimp only at hok
                injection hok with hok2
                subst hok2
                rcases List.mem_cons.mp hmem with heq | hmem2
                · rw [Prod.mk.injEq] at heq
                  obtain ⟨hc, -⟩ := heq
                  subst hc
                  simp [List.map_cons]
                · have hmem3 := ih tail c vals ps hloop hmem2 hstat
                  simp [List.map_cons, hmem3]

/-- When `_calculate_metrics` succeeds, its value-score list is exactly
the output of the per-code loop. -/
theorem calculate_metrics_ok_loop (observations : List Observation)
    (stats : List (String × PopulationStatistics)) (m : PatientMetrics)
    (h : calculate_metrics observations stats = .ok m) :
    value_scores_loop stats (prepare_observations_values observations)
      = .ok m.value_scores := by
  simp only [calculate_metrics] at h
  cases hl : value_scores_loop stats (prepare_observations_values observations) with
  | error e =>
      rw [hl] at h
      cases h
  | ok vs =>
      rw [hl] at h
      dsimp only at h
      cases hs : stdevE (observations.map (·.value_quantity)) with
      | error e =>
          rw [hs] at h
          dsimp only at h
          cases h
      | ok sd =>
          rw [hs] at h
          dsimp only at h
          by_cases hm : listMean (observations.map (·.value_quantity)) = 0
          · rw [if_pos hm] at h
            cases h
          · rw [if_neg hm] at h
            injection h with h2
            rw [← h2]

/-- Floor of `s / 20` from linear bounds on `s`. -/
theorem floor_div20_eq (s : ℚ) (k : ℤ) (h1 : (k : ℚ) * 20 ≤ s)
    (h2 : s < ((k : ℚ) + 1) * 20) : ⌊s / 20⌋ = k := by
  rw [Int.floor_eq_iff]
  constructor
  · rw [le_div_iff₀ (by norm_num : (0:ℚ) < 20)]
    exact h1
  · rw [div_lt_iff₀ (by norm_num : (0:ℚ) < 20)]
    linarith

/-! ### Claims -/

/-- Claim C1.  The claim states that each recorded per-indicator score is
`max(0, 100 - (|patient_mean - population_mean| / population_stdev) * 20)`.
In store A the patient mean for coding `A` is 3, the population statistics
for `A` are mean `1/3` and stdev 1, so the claimed score is `140/3`; the
code instead records score 100, because `_calculate_metrics` assigns
`avg_value = pop_stats.mean` (the population mean, not the patient mean),
making the computed z-score identically zero. -/
theorem claim_C1_z_score_ignores_patient_mean :
    listMean (findValues (prepare_observations_values
        (patient_observations dbA fA)) "A") = 3
    ∧ findStat (calculate_statistics
        (patient_observations dbA fA ++ other_observations dbA fA)) "A" = some psA
    ∧ psA.mean = 1/3 ∧ psA.std = 1
    ∧ (calculate_metrics (patient_observations dbA fA)
        (calculate_statistics
          (patient_observations dbA fA ++ other_observations dbA fA))).map
        (fun m => m.value_scores.map ValueScore.score) = .ok [100]
    ∧ max 0 (100 - |(3 : ℚ) - 1/3| / 1 * 20) = 140/3
    ∧ (100 : ℚ) ≠ 140/3 := by
  refine ⟨?_, ?_, rfl, rfl, ?_, ?_, by norm_num⟩
  · rw [pObsA_eval]
    norm_num +decide [prepare_observations_values, addObservation, addValue,
      findValues, obsA1, obsA2, ccA, ccB, cdA, cdB, List.foldl, listMean]
  · rw [statsA_eval]
    simp [findStat]
  · rw [metricsA_eval]
    simp [Except.map, mA, vsA]
  · have habs : |(3 : ℚ) - 1/3| = 8/3 := by
      rw [abs_of_pos (by norm_num)]
      norm_num
    rw [habs, max_eq_right (by norm_num : (0:ℚ) ≤ 100 - 8/3 / 1 * 20)]
    norm_num

/-- Claim C2, counterexample.  In store A the pipeline returns aggregate
score 85 while the per-indicator score list is `[100]`, whose mean rounded
to 4 decimals is 100: the aggregate is not the unweighted mean of the
per-indicator scores. -/
theorem claim_C2_counterexample :
    (get_health_score dbA fA w0).map (fun r => r.conclusion.health_score)
      = .ok 85
    ∧ (calculate_metrics (patient_observations dbA fA)
        (calculate_statistics
          (patient_observations dbA fA ++ other_observations dbA fA))).map
        (fun m => m.value_scores.map (·.score)) = .ok [100]
    ∧ round4 (listMean [100]) = 100
    ∧ (85 : ℚ) ≠ 100 := by
  refine ⟨?_, ?_, ?_, by norm_num⟩
  · rw [reportA_eval]
    simp [Except.map, rA, conclA]
  · rw [metricsA_eval]
    simp [Except.map, mA, vsA]
  · have hr : round ((100:ℚ) * 10000) = 1000000 := by
      rw [round_eq, Int.floor_eq_iff]
      norm_num
    norm_num [round4, listMean, hr]

/-- Claim C2, amended.  The aggregate score returned in the report is the
weighted sum of three components rounded to 2 decimals: the coverage score
`min(100, 20 * number_of_codes)`, the mean of the per-indicator scores
(only when at least one exists), and the consistency score, each
multiplied by its configured weight.  It is not the unweighted mean of the
per-indicator scores and is not rounded to 4 decimals. -/
theorem claim_C2_aggregate_is_weighted (db : Database) (f : ObservationFilters)
    (w : AppSettings) (r : DiagnosticReport) (m : PatientMetrics)
    (hok : get_health_score db f w = .ok r)
    (hm : calculate_metrics (patient_observations db f)
        (calculate_statistics
          (patient_observations db f ++ other_observations db f)) = .ok m) :
    r.conclusion.health_score = round2
      (min 100 ((m.observation_codes.length : ℚ) * 20) *
          w.SERVICE_SCORE_WEIGHT_OBSERVATION_COVERAGE
        + (if m.value_scores = [] then 0
           else listMean (m.value_scores.map (·.score)) *
             w.SERVICE_SCORE_WEIGHT_VALUE_QUALITY)
        + m.consistency_score * w.SERVICE_SCORE_WEIGHT_CONS) := by
  rw [← calculate_score_formula]
  cases hsub : f.subject_ids with
  | nil =>
      simp only [get_health_score, hsub] at hok
      cases hok
  | cons pid rest =>
      simp only [get_health_score, hsub] at hok
      by_cases hp : pid ∈ db.patients
      · rw [if_pos hp] at hok
        by_cases he : patient_observations db f = []
        · rw [if_pos he] at hok
          cases hok
        · rw [if_neg he] at hok
          rw [hm] at hok
          dsimp only at hok
          cases hc : compose_conclusion f pid (calculate_score w m) m with
          | error e =>
              rw [hc] at hok
              dsimp only at hok
              cases hok
          | ok c =>
              rw [hc] at hok
              dsimp only at hok
              injection hok with hok2
              have hcs : c.health_score = calculate_score w m := by
                simp only [compose_conclusion] at hc
                cases ha : assignments_map ⌊calculate_score w m / 20⌋ with
                | none =>
                    rw [ha] at hc
                    cases hc
                | some t =>
                    rw [ha] at hc
                    injection hc with hc2
                    rw [← hc2]
              rw [← hok2]
              exact hcs
      · rw [if_neg hp] at hok
        cases hok

/-- Claim C2, witness instantiating the amended statement in store A. -/
theorem claim_C2_aggregate_is_weighted_witness :
    rA.conclusion.health_score = round2
      (min 100 ((mA.observation_codes.length : ℚ) * 20) *
          w0.SERVICE_SCORE_WEIGHT_OBSERVATION_COVERAGE
        + (if mA.value_scores = [] then 0
           else listMean (mA.value_scores.map (·.score)) *
             w0.SERVICE_SCORE_WEIGHT_VALUE_QUALITY)
        + mA.consistency_score * w0.SERVICE_SCORE_WEIGHT_CONS) :=
  claim_C2_aggregate_is_weighted dbA fA w0 rA mA reportA_eval metricsA_eval

/-- Claim C3, counterexample.  An aggregate score of exactly 80 yields the
bucket-4 text "Excellent health data quality and consistency.", not the
claimed bucket-3 text, and at a score of exactly 100 the composition fails
with a `KeyError` (bucket 5 is not in the map), so the composition is not
total on `[0, 100]`. -/
theorem claim_C3_counterexample :
    (compose_conclusion fA 1 80 mEmpty).map Conclusion.overall_assessment
      = .ok "Excellent health data quality and consistency."
    ∧ "Excellent health data quality and consistency."
      ≠ "Good health data with room for improvement."
    ∧ compose_conclusion fA 1 100 mEmpty = .error .keyError := by
  refine ⟨?_, by decide, ?_⟩
  · have hb : ⌊(80 : ℚ) / 20⌋ = 4 := floor_div20_eq 80 4 (by norm_num) (by norm_num)
    simp [compose_conclusion, hb, assignments_map, Except.map]
  · have hb : ⌊(100 : ℚ) / 20⌋ = 5 := floor_div20_eq 100 5 (by norm_num) (by norm_num)
    simp [compose_conclusion, hb, assignments_map]

/-- Claim C3, amended.  The code buckets the aggregate score with
`int(health_score // 20)` — no `- 1` shift and no clamping.  For scores in
`[0, 100)` the composition succeeds and embeds the fixed text of bucket
`⌊s / 20⌋` (so a score of exactly 80 falls in bucket 4, "Excellent ...");
at a score of exactly 100 the lookup raises a `KeyError`. -/
theorem claim_C3_bucket_is_unshifted_floor :
    (∀ (f : ObservationFilters) (pid : Nat) (m : PatientMetrics) (s : ℚ),
        0 ≤ s → s < 100 →
        (compose_conclusion f pid s m).map Conclusion.overall_assessment
          = .ok (amended_assessment_text s)) ∧
      ∀ (f : ObservationFilters) (pid : Nat) (m : PatientMetrics),
        compose_conclusion f pid 100 m = .error .keyError := by
  constructor
  · intro f pid m s h0 h1
    by_cases c1 : s < 20
    · have hb : ⌊s / 20⌋ = 0 := floor_div20_eq s 0 (by push_cast; linarith)
        (by push_cast; linarith)
      simp [compose_conclusion, hb, assignments_map, amended_assessment_text,
        c1, Except.map]
    · by_cases c2 : s < 40
      · have hb : ⌊s / 20⌋ = 1 := floor_div20_eq s 1 (by push_cast; linarith)
          (by push_cast; linarith)
        simp [compose_conclusion, hb, assignments_map, amended_assessment_text,
          c1, c2, Except.map]
      · by_cases c3 : s < 60
        · have hb : ⌊s / 20⌋ = 2 := floor_div20_eq s 2 (by push_cast; linarith)
            (by push_cast; linarith)
          simp [compose_conclusion, hb, assignments_map, amended_assessment_text,
            c1, c2, c3, Except.map]
        · by_cases c4 : s < 80
          · have hb : ⌊s / 20⌋ = 3 := floor_div20_eq s 3 (by push_cast; linarith)
              (by push_cast; linarith)
            simp [compose_conclusion, hb, assignments_map, amended_assessment_text,
              c1, c2, c3, c4, Except.map]
          · have hb : ⌊s / 20⌋ = 4 := floor_div20_eq s 4 (by push_cast; linarith)
              (by push_cast; linarith)
            simp [compose_conclusion, hb, assignments_map, amended_assessment_text,
              c1, c2, c3, c4, Except.map]
  · intro f pid m
    have hb : ⌊(100 : ℚ) / 20⌋ = 5 := floor_div20_eq 100 5 (by norm_num) (by norm_num)
    simp [compose_conclusion, hb, assignments_map]

/-- Claim C3, witness instantiating the amended statement at scores 50
and 100. -/
theorem claim_C3_bucket_is_unshifted_floor_witness :
    (compose_conclusion fA 1 50 mEmpty).map Conclusion.overall_assessment
      = .ok (amended_assessment_text 50)
    ∧ compose_conclusion fA 1 100 mEmpty = .error .keyError :=
  ⟨claim_C3_bucket_is_unshifted_floor.1 fA 1 mEmpty 50 (by norm_num) (by norm_num),
    claim_C3_bucket_is_unshifted_floor.2 fA 1 mEmpty⟩

/-- Claim C4.  When the resolved patient has no observations in the
requested window, `get_health_score` raises the bad-request error whose
detail mentions that no observations were found, and no report is
produced; the pipeline never reaches statistics, scoring or
composition. -/
theorem claim_C4_no_observations_bad_request (db : Database)
    (f : ObservationFilters) (w : AppSettings) (pid : Nat) (rest : List Nat)
    (hsub : f.subject_ids = pid :: rest) (hp : pid ∈ db.patients)
    (he : patient_observations db f = []) :
    get_health_score db f w = .error (.badRequest (no_observations_detail f)) := by
  simp only [get_health_score, hsub]
  rw [if_pos hp, if_pos he]

/-- Claim C4, witness: store C9 with the window `[100, 200]`, which
matches none of patient 1's observations. -/
theorem claim_C4_no_observations_bad_request_witness :
    get_health_score dbC9 fC4 w0
      = .error (.badRequest (no_observations_detail fC4)) :=
  claim_C4_no_observations_bad_request dbC9 fC4 w0 1 [] rfl (by decide) pObsC4_eval

/-- Claim C5.  The claim states that a zero population standard deviation
is explicitly detected before dividing, with the indicator excluded or a
clear computation error raised.  In store C5 the combined statistics for
coding `A` have count 2 and standard deviation 0; the scoring path
performs the division `(avg_value - pop_stats.mean) / pop_stats.std`
unguarded and the whole computation aborts with Python's raw
`ZeroDivisionError` — the indicator is not excluded and no explicit
detection occurs. -/
theorem claim_C5_zero_std_division_unguarded :
    findStat (calculate_statistics
        (patient_observations dbC5 fA ++ other_observations dbC5 fA)) "A"
      = some psC5
    ∧ psC5.std = 0 ∧ psC5.count = 2
    ∧ get_health_score dbC5 fA w0 = .error .zeroDivision := by
  refine ⟨?_, rfl, rfl, report5_eval⟩
  rw [stats5_eval]
  simp [findStat]

/-- Claim C6, counterexample.  In store C6 no coding qualifies for scoring
(the value-score list is empty), yet the computation does not fail: it
returns a report with aggregate score 50 computed from the coverage and
consistency components alone. -/
theorem claim_C6_counterexample :
    (calculate_metrics (patient_observations dbC6 fA)
        (calculate_statistics
          (patient_observations dbC6 fA ++ other_observations dbC6 fA))).map
        PatientMetrics.value_scores = .ok []
    ∧ (get_health_score dbC6 fA w0).map (fun r => r.conclusion.health_score)
      = .ok 50 := by
  constructor
  · rw [metrics6_eval]
    simp [Except.map, m6]
  · rw [report6_eval]
    simp [Except.map, r6, concl6]

/-- Claim C6, amended.  An empty per-indicator score list is not an error:
`_calculate_score` simply skips the value-quality term and returns the
rounded weighted sum of the coverage and consistency components, and the
pipeline goes on to produce a report. -/
theorem claim_C6_empty_scores_skip_quality_term (w : AppSettings)
    (m : PatientMetrics) (h : m.value_scores = []) :
    calculate_score w m = round2
      (min 100 ((m.observation_codes.length : ℚ) * 20) *
          w.SERVICE_SCORE_WEIGHT_OBSERVATION_COVERAGE
        + m.consistency_score * w.SERVICE_SCORE_WEIGHT_CONS) := by
  simp only [calculate_score, if_pos h]
  congr 1
  ring

/-- Claim C6, witness instantiating the amended statement at the metrics
of store C6. -/
theorem claim_C6_empty_scores_skip_quality_term_witness :
    calculate_score w0 m6 = round2
      (min 100 ((m6.observation_codes.length : ℚ) * 20) *
          w0.SERVICE_SCORE_WEIGHT_OBSERVATION_COVERAGE
        + m6.consistency_score * w0.SERVICE_SCORE_WEIGHT_CONS) :=
  claim_C6_empty_scores_skip_quality_term w0 m6 rfl

/-- Negated `contains` on id lists coincides with non-membership. -/
theorem bang_contains_iff (ids : List Nat) (x : Nat) :
    (!(ids.contains x)) = true ↔ x ∉ ids := by
  simp

/-- Appending a value to its own bucket extends that bucket. -/
theorem findValues_addValue_self (m : List (String × List ℚ)) (c : String)
    (v : ℚ) : findValues (addValue m c v) c = findValues m c ++ [v] := by
  induction m with
  | nil => simp [addValue, findValues]
  | cons kv rest ih =>
      obtain ⟨k, vs⟩ := kv
      by_cases hk : k = c
      · subst hk
        simp [addValue, findValues]
      · simp [addValue, findValues, hk, ih]

/-- Appending a value to a different bucket leaves a bucket unchanged. -/
theorem findValues_addValue_ne (m : List (String × List ℚ)) (c c2 : String)
    (v : ℚ) (h : c2 ≠ c) : findValues (addValue m c2 v) c = findValues m c := by
  induction m with
  | nil => simp [addValue, findValues, h]
  | cons kv rest ih =>
      obtain ⟨k, vs⟩ := kv
      by_cases hk : k = c2
      · subst hk
        simp [addValue, findValues, h]
      · by_cases hkc : k = c
        · subst hkc
          simp [addValue, findValues, hk]
        · simp [addValue, findValues, hk, hkc, ih]

/-- One observation contributes to bucket `c` exactly one copy of its
value per attached coding whose `code` string is `c`. -/
theorem findValues_addObservation (m : List (String × List ℚ))
    (o : Observation) (c : String) :
    findValues (addObservation m o) c
      = findValues m c ++ (o.code.coding.filter (fun cd => cd.code = c)).map
          (fun _ => o.value_quantity) := by
  suffices h : ∀ (cds : List Coding) (m0 : List (String × List ℚ)),
      findValues (cds.foldl (fun m cd => addValue m cd.code o.value_quantity) m0) c
        = findValues m0 c
          ++ (cds.filter (fun cd => cd.code = c)).map (fun _ => o.value_quantity) by
    simpa only [addObservation] using h o.code.coding m
  intro cds
  induction cds with
  | nil =>
      intro m0
      simp
  | cons cd rest ih =>
      intro m0
      simp only [List.foldl_cons, List.filter_cons]
      by_cases hc : cd.code = c
      · rw [ih (addValue m0 cd.code o.value_quantity), hc, findValues_addValue_self]
        simp [hc]
      · rw [ih (addValue m0 cd.code o.value_quantity),
          findValues_addValue_ne m0 c cd.code o.value_quantity hc]
        simp [hc]

/-- Claim C7, counterexample.  In store A the patient has exactly one
observation of coding `A` (the combined count is 9), yet a per-indicator
score for `A` is recorded: there is no patient-side `count ≥ 2` filter. -/
theorem claim_C7_counterexample :
    (findValues (prepare_observations_values
        (patient_observations dbA fA)) "A").length = 1
    ∧ (findStat (calculate_statistics
        (patient_observations dbA fA ++ other_observations dbA fA)) "A").map
        PopulationStatistics.count = some 9
    ∧ (calculate_metrics (patient_observations dbA fA)
        (calculate_statistics
          (patient_observations dbA fA ++ other_observations dbA fA))).map
        (fun m => m.value_scores.map ValueScore.code) = .ok ["A"] := by
  refine ⟨?_, ?_, ?_⟩
  · rw [pObsA_eval]
    norm_num +decide [prepare_observations_values, addObservation, addValue,
      findValues, obsA1, obsA2, ccA, ccB, cdA, cdB, List.foldl]
  · rw [statsA_eval]
    simp [findStat, psA]
  · rw [metricsA_eval]
    simp [Except.map, mA, vsA]

/-- Claim C7, amended.  `_calculate_metrics` never computes patient-only
statistics and applies no patient-side sample-count threshold: whenever
the metrics computation succeeds, every patient code that is present in
the (combined) statistics map — however few samples the patient has —
receives a recorded per-indicator score. -/
theorem claim_C7_single_sample_codes_are_scored
    (observations : List Observation)
    (stats : List (String × PopulationStatistics)) (m : PatientMetrics)
    (c : String)
    (hok : calculate_metrics observations stats = .ok m)
    (hkey : c ∈ keysOf (prepare_observations_values observations))
    (hstat : (findStat stats c).isSome = true) :
    c ∈ m.value_scores.map ValueScore.code := by
  obtain ⟨ps, hps⟩ := Option.isSome_iff_exists.mp hstat
  have hloop := calculate_metrics_ok_loop observations stats m hok
  obtain ⟨p, hp, hfst⟩ := List.mem_map.mp hkey
  have hmem : (c, p.2) ∈ prepare_observations_values observations := by
    rw [← hfst]
    simpa using hp
  exact value_scores_loop_mem_code stats (prepare_observations_values observations)
    m.value_scores c p.2 ps hloop hmem hps

/-- Claim C7, witness instantiating the amended statement in store A at
coding `A`, for which the patient holds a single sample. -/
theorem claim_C7_single_sample_codes_are_scored_witness :
    "A" ∈ mA.value_scores.map ValueScore.code :=
  claim_C7_single_sample_codes_are_scored
    (patient_observations dbA fA)
    (calculate_statistics (patient_observations dbA fA ++ other_observations dbA fA))
    mA "A" metricsA_eval
    (by
      rw [pObsA_eval]
      norm_num +decide [prepare_observations_values, addObservation, addValue,
        keysOf, obsA1, obsA2, ccA, ccB, cdA, cdB, List.foldl])
    (by
      rw [statsA_eval]
      simp [findStat])

/-- Claim C8, counterexample.  Two observations whose codings share the
code string `X` but come from different systems (`sysA` and `sysB`) are
pooled into one bucket: the grouping key is the code string alone, not the
`(system, code)` pair. -/
theorem claim_C8_counterexample :
    prepare_observations_values [o81, o82] = [("X", [1, 2])]
    ∧ o81.code.coding = [{ code := "X", system := "sysA" }]
    ∧ o82.code.coding = [{ code := "X", system := "sysB" }]
    ∧ ("sysA" : String) ≠ "sysB" := by
  refine ⟨?_, rfl, rfl, by decide⟩
  simp +decide [prepare_observations_values, addObservation, addValue, o81, o82,
    List.foldl]

/-- Claim C8, amended.  The Statistics Aggregator pools values by the
`code` string of each attached coding only: the bucket of `c` consists of
one copy of an observation's value per coding with code string `c`,
irrespective of the coding's `system`. -/
theorem claim_C8_grouping_is_by_code_string (l : List Observation) (c : String) :
    findValues (prepare_observations_values l) c
      = (l.map (fun o => (o.code.coding.filter (fun cd => cd.code = c)).map
          (fun _ => o.value_quantity))).flatten := by
  suffices h : ∀ (m0 : List (String × List ℚ)),
      findValues (l.foldl addObservation m0) c
        = findValues m0 c ++ (l.map (fun o => (o.code.coding.filter
            (fun cd => cd.code = c)).map (fun _ => o.value_quantity))).flatten by
    simpa only [prepare_observations_values, findValues, List.nil_append] using h []
  induction l with
  | nil =>
      intro m0
      simp
  | cons o rest ih =>
      intro m0
      simp only [List.foldl_cons, List.map_cons, List.flatten_cons]
      rw [ih (addObservation m0 o), findValues_addObservation]
      simp [List.append_assoc]

/-- Claim C9, counterexample.  In store C9 the patient's out-of-window
observation `obsW2` is not excluded from the population comparison set:
only the ids of the in-window patient observations are excluded. -/
theorem claim_C9_counterexample :
    patient_observations dbC9 fC9 = [obsW1]
    ∧ other_observations dbC9 fC9 = [obsW2, obsW3]
    ∧ obsW2.subject_id = 1
    ∧ observation_matches_filters fC9 obsW2 = false :=
  ⟨pObs9_eval, others9_eval, rfl, by decide⟩

/-- Claim C9, amended.  The population comparison set consists of exactly
those stored observations whose id differs from every id of the windowed
patient fetch: the patient's own out-of-window observations are therefore
part of the population set, and no window filter is applied to it. -/
theorem claim_C9_population_excludes_only_windowed_ids (db : Database)
    (f : ObservationFilters) (o : Observation) :
    o ∈ other_observations db f ↔
      o ∈ db.observations ∧ ∀ o2 ∈ patient_observations db f, o2.id ≠ o.id := by
  simp only [other_observations, List.mem_filter, bang_contains_iff, List.mem_map]
  constructor
  · rintro ⟨h1, h2⟩
    exact ⟨h1, fun o2 ho2 heq => h2 ⟨o2, ho2, heq⟩⟩
  · rintro ⟨h1, h2⟩
    exact ⟨h1, fun ⟨o2, ho2, heq⟩ => h2 o2 ho2 heq⟩

/-- Claim C10.  When the windowed patient fetch is nonempty (so the
bad-request guard passes) but holds exactly one observation, or its values
have arithmetic mean zero, `get_health_score` aborts with an unhandled
computation error — the `StatisticsError` of `stdev` on one data point or
the `ZeroDivisionError` of the consistency quotient — and produces no
report. -/
theorem claim_C10_single_obs_or_zero_mean_error (db : Database)
    (f : ObservationFilters) (w : AppSettings) (pid : Nat) (rest : List Nat)
    (hsub : f.subject_ids = pid :: rest) (hp : pid ∈ db.patients)
    (hne : patient_observations db f ≠ [])
    (hcond : (patient_observations db f).length = 1 ∨
      listMean ((patient_observations db f).map (·.value_quantity)) = 0) :
    get_health_score db f w = .error .zeroDivision ∨
      get_health_score db f w = .error .statisticsError := by
  have hmet : calculate_metrics (patient_observations db f)
      (calculate_statistics (patient_observations db f ++ other_observations db f))
        = .error .zeroDivision ∨
      calculate_metrics (patient_observations db f)
        (calculate_statistics (patient_observations db f ++ other_observations db f))
          = .error .statisticsError := by
    rcases value_scores_loop_zero_or_ok
        (calculate_statistics (patient_observations db f ++ other_observations db f))
        (prepare_observations_values (patient_observations db f)) with herr | ⟨vs, hok2⟩
    · left
      simp only [calculate_metrics, herr]
    · by_cases h2 : ((patient_observations db f).map (·.value_quantity)).length ≥ 2
      · have hlen : ¬(patient_observations db f).length = 1 := by
          rw [List.length_map] at h2
          omega
        have hmean := hcond.resolve_left hlen
        left
        simp only [calculate_metrics, hok2]
        simp only [stdevE, if_pos h2]
        rw [if_pos hmean]
      · right
        simp only [calculate_metrics, hok2]
        simp only [stdevE, if_neg h2]
  rcases hmet with h | h
  · left
    simp only [get_health_score, hsub]
    rw [if_pos hp, if_neg hne, h]
  · right
    simp only [get_health_score, hsub]
    rw [if_pos hp, if_neg hne, h]

/-- Claim C10, witness: store C10, where patient 1 has exactly one
observation; the computation aborts with the `StatisticsError` branch. -/
theorem claim_C10_single_obs_or_zero_mean_error_witness :
    get_health_score dbC10 fA w0 = .error .zeroDivision ∨
      get_health_score dbC10 fA w0 = .error .statisticsError :=
  claim_C10_single_obs_or_zero_mean_error dbC10 fA w0 1 [] rfl (by decide)
    (by
      rw [pObs10_eval]
      simp)
    (Or.inl (by
      rw [pObs10_eval]
      rfl))
